import Mathlib

/-!
Shallow embedding of `src/web/view_programs.js` (irrigation-program dashboard page)
and proofs of its specified properties.

Conventions of the embedding:
* JavaScript values that may be `undefined`/`null` are modelled as `Option`;
  for arrays, `JSList` distinguishes `undefined`, `null` and a concrete array
  (the code only ever tests them for falsiness, where both collapse).
* The JS idiom `x || d` on strings/numbers/arrays is modelled by the `jsOr*`
  helpers: the default is taken exactly on the falsy values representable in
  the model (`undefined`/`null`, the empty string, the number 0, respectively).
* DOM nodes touched by the script are modelled as records of the attributes the
  script reads or writes (CSS classes, `disabled`, `checked`, data attributes).
* `fetch` calls are modelled by the request they issue (URL plus JSON body as an
  association list) together with a pure handler from the parsed response to the
  resulting DOM/page state; one invocation of a dispatcher is a trace recording
  the requests issued, the DOM state after the optimistic (pre-response) phase,
  and the DOM state after the response handler ran.
-/

namespace ViewPrograms

/-- A JSON scalar appearing in a request body. -/
inductive JVal where
  | str (s : String)
  | bool (b : Bool)
  deriving DecidableEq, Repr

/-- A POST request issued via `fetch`: URL and JSON body as key/value pairs
(`JSON.stringify` of an object literal). -/
structure PostRequest where
  url : String
  body : List (String × JVal)
  deriving DecidableEq, Repr

/-- A JS array-valued field: `undefined`, `null`, or an actual array. -/
inductive JSList (α : Type) where
  | undef
  | nullv
  | arr (xs : List α)
  deriving DecidableEq, Repr

/-- `xs || []` : JS default for a possibly-missing array. -/
def JSList.orEmpty {α : Type} : JSList α → List α
  | .undef => []
  | .nullv => []
  | .arr xs => xs

/-- `s || d` for a possibly-missing string (empty string is falsy). -/
def jsOrStr (s : Option String) (d : String) : String :=
  match s with
  | none => d
  | some v => if v = "" then d else v

/-- `n || d` for a possibly-missing number (0 is falsy). -/
def jsOrInt (n : Option Int) (d : Int) : Int :=
  match n with
  | none => d
  | some v => if v = 0 then d else v

/-! ### formatRecurrence (view_programs.js lines 388–401) -/

/-- The interpolation `${interval_days || 1}` in the custom-recurrence template. -/
def customCount (interval_days : Option Int) : Int :=
  jsOrInt interval_days 1

/-- The interpolation `${interval_days === 1 ? 'o' : 'i'}` in the
custom-recurrence template (strict equality against the number 1). -/
def customDaySuffix (interval_days : Option Int) : String :=
  if interval_days = some 1 then "o" else "i"

/-- `formatRecurrence(recurrence, interval_days)`: switch over the recurrence
kind; `!recurrence` (missing or empty) yields the unset text. -/
def formatRecurrence (recurrence : Option String) (interval_days : Option Int) : String :=
  match recurrence with
  | none => "Non impostata"
  | some r =>
    if r = "" then "Non impostata"
    else if r = "giornaliero" then "Ogni giorno"
    else if r = "giorni_alterni" then "Giorni alterni"
    else if r = "personalizzata" then
      "Ogni " ++ toString (customCount interval_days) ++ " giorn" ++ customDaySuffix interval_days
    else r

/-! ### buildMonthsGrid (view_programs.js lines 404–422) -/

/-- The fixed month-name table of `buildMonthsGrid`. -/
def monthNames : List String :=
  ["Gennaio", "Febbraio", "Marzo", "Aprile",
   "Maggio", "Giugno", "Luglio", "Agosto",
   "Settembre", "Ottobre", "Novembre", "Dicembre"]

/-- One rendered month tag: its CSS class (`active`/`inactive`) and its
three-letter label (`month.substring(0, 3)`). -/
structure MonthTag where
  cls : String
  label : String
  deriving DecidableEq, Repr

/-- `buildMonthsGrid(activeMonths)`: maps the fixed 12-month table to tags,
marking a month active when the set built from `activeMonths || []` contains
it (for strings, `Set.has` is list membership). -/
def buildMonthsGrid (activeMonths : JSList String) : List MonthTag :=
  monthNames.map (fun m =>
    { cls := if (activeMonths.orEmpty).contains m then "active" else "inactive",
      label := m.take 3 })

/-! ### Data model: run state, programs, zones -/

/-- The run state returned by `GET /get_program_state`: the running flag and
the current program identifier (a string, possibly `null`). -/
structure RunState where
  current_program_id : Option String
  program_running : Bool
  deriving DecidableEq, Repr

/-- One step of a program: zone identifier and duration in minutes; either
field may be missing in the JSON. -/
structure Step where
  zone_id : Option Int
  duration : Option Int
  deriving DecidableEq, Repr

/-- A zone entry of the user settings. -/
structure Zone where
  id : Option Int
  name : Option String
  deriving DecidableEq, Repr

/-- A program as stored in `program.json` (all fields may be missing). -/
structure Program where
  name : Option String
  activation_time : Option String
  recurrence : Option String
  interval_days : Option Int
  last_run_date : Option String
  months : JSList String
  steps : JSList (Option Step)
  automatic_enabled : Option Bool
  deriving DecidableEq, Repr

/-! ### zoneNameMap and buildZonesGrid (view_programs.js lines 226–234, 424–441) -/

/-- Assignment `m[k] = v` on a JS object modelled as an association list:
replaces the binding when the key exists, appends it otherwise. -/
def mapInsert (m : List (Int × String)) (k : Int) (v : String) : List (Int × String) :=
  if m.any (fun p => p.1 = k) then m.map (fun p => if p.1 = k then (k, v) else p)
  else m ++ [(k, v)]

/-- The `zoneNameMap` built in `loadUserSettingsAndPrograms`: for each zone with
a defined id, bind `zone.name || 'Zona (id+1)'`; missing/non-array `zones` gives
the empty map. -/
def buildZoneNameMap (zones : Option (List (Option Zone))) : List (Int × String) :=
  match zones with
  | none => []
  | some zs =>
    zs.foldl (fun m z =>
      match z with
      | none => m
      | some zone =>
        match zone.id with
        | none => m
        | some zid => mapInsert m zid (jsOrStr zone.name ("Zona " ++ toString (zid + 1)))) []

/-- `zoneNameMap[zid] || 'Zona (zid+1)'` at the use site in `buildZonesGrid`. -/
def lookupZoneName (zoneMap : List (Int × String)) (zid : Int) : String :=
  match zoneMap.lookup zid with
  | none => "Zona " ++ toString (zid + 1)
  | some n => if n = "" then "Zona " ++ toString (zid + 1) else n

/-- One rendered zone tag: zone name and duration (`step.duration || 0`). -/
structure ZoneTag where
  name : String
  durationMin : Int
  deriving DecidableEq, Repr

/-- Result of `buildZonesGrid`: the no-zones placeholder, or one tag per step
(null steps and steps with undefined `zone_id` produce no tag). -/
inductive ZonesGrid where
  | noZones
  | tags (l : List ZoneTag)
  deriving DecidableEq, Repr

/-- `buildZonesGrid(steps)` (called with `program.steps || []`). -/
def buildZonesGrid (zoneMap : List (Int × String)) (steps : List (Option Step)) : ZonesGrid :=
  if steps = [] then .noZones
  else .tags (steps.filterMap (fun os =>
    match os with
    | none => none
    | some st =>
      match st.zone_id with
      | none => none
      | some zid => some { name := lookupZoneName zoneMap zid,
                           durationMin := jsOrInt st.duration 0 }))

/-! ### Cards and updateProgramsUI (view_programs.js lines 134–194) -/

/-- A start/stop button: presence of the `disabled` CSS class and the
`disabled` DOM property. -/
structure Btn where
  classDisabled : Bool
  disabled : Bool
  deriving DecidableEq, Repr

/-- The parts of a program card that `updateProgramsUI` reads or writes:
its `data-program-id` attribute, the `active-program` class, whether the
`.program-header` node and the `.active-indicator` node are present, whether
both action buttons are present, and the two buttons. -/
structure Card where
  programId : String
  activeClass : Bool
  hasHeader : Bool
  hasIndicator : Bool
  hasButtons : Bool
  startBtn : Btn
  stopBtn : Btn
  deriving DecidableEq, Repr

/-- The per-card body of `updateProgramsUI`: recompute `isActive`, set the
active class and indicator accordingly, and (when both buttons are present)
set the button states by the three-way case split. -/
def updateCard (state : RunState) (c : Card) : Card :=
  let isActive := state.program_running && (state.current_program_id == some c.programId)
  let c1 :=
    if isActive then
      { c with activeClass := true,
               hasIndicator := c.hasIndicator || c.hasHeader }
    else
      { c with activeClass := false, hasIndicator := false }
  if c1.hasButtons then
    if isActive then
      { c1 with startBtn := { classDisabled := true, disabled := true },
                stopBtn := { classDisabled := false, disabled := false } }
    else if state.program_running then
      { c1 with startBtn := { classDisabled := true, disabled := true },
                stopBtn := { classDisabled := true, disabled := true } }
    else
      { c1 with startBtn := { classDisabled := false, disabled := false },
                stopBtn := { classDisabled := true, disabled := true } }
  else c1

/-- `updateProgramsUI(state)`: apply `updateCard` to every card on the page. -/
def updateProgramsUI (state : RunState) (cards : List Card) : List Card :=
  cards.map (updateCard state)

/-! ### renderProgramCards (view_programs.js lines 261–385) -/

/-- A freshly rendered program card: the control part (same shape that
`updateProgramsUI` later patches) plus the rendered informational content. -/
structure RenderedCard where
  card : Card
  name : String
  activationTime : String
  recurrenceText : String
  lastRun : String
  months : List MonthTag
  zones : ZonesGrid
  autoOn : Bool
  switchChecked : Bool
  deriving DecidableEq, Repr

/-- The card built for one entry of the program object. `programId` is a key of
the JS object, hence already a string, so `String(programId)` is `programId`
itself; `isActive` is `state.program_running && state.current_program_id ===
String(programId)`; `isAutomatic` is `program.automatic_enabled !== false`. -/
def renderCard (zoneMap : List (Int × String)) (state : RunState)
    (programId : String) (prog : Program) : RenderedCard :=
  let isActive := state.program_running && (state.current_program_id == some programId)
  let isAutomatic := !(prog.automatic_enabled == some false)
  { card := { programId := programId,
              activeClass := isActive,
              hasHeader := true,
              hasIndicator := isActive,
              hasButtons := true,
              startBtn := { classDisabled := isActive, disabled := isActive },
              stopBtn := { classDisabled := !isActive, disabled := !isActive } },
    name := jsOrStr prog.name "Programma senza nome",
    activationTime := jsOrStr prog.activation_time "Non impostato",
    recurrenceText := formatRecurrence prog.recurrence prog.interval_days,
    lastRun := jsOrStr prog.last_run_date "Mai eseguito",
    months := buildMonthsGrid (.arr prog.months.orEmpty),
    zones := buildZonesGrid zoneMap prog.steps.orEmpty,
    autoOn := isAutomatic,
    switchChecked := isAutomatic }

/-- Result of `renderProgramCards`: the empty-state block, or the list of
rendered cards. -/
inductive RenderResult where
  | emptyState
  | cards (l : List RenderedCard)
  deriving DecidableEq, Repr

/-- `renderProgramCards(programs, state)`: empty state when the program object
is missing or has no keys; otherwise one card per non-null program entry
(`if (!program) return` skips null values). -/
def renderProgramCards (zoneMap : List (Int × String))
    (programs : Option (List (String × Option Program))) (state : RunState) : RenderResult :=
  match programs with
  | none => .emptyState
  | some entries =>
    if entries = [] then .emptyState
    else .cards (entries.filterMap (fun e =>
      match e.2 with
      | none => none
      | some prog => some (renderCard zoneMap state e.1 prog)))

/-! ### loadUserSettingsAndPrograms (view_programs.js lines 197–259) -/

/-- An HTTP response as the page sees it: the `ok` flag of the `Response` and
the parsed JSON body. -/
structure HttpResp (α : Type) where
  ok : Bool
  body : α

/-- The user-settings document. -/
structure Settings where
  automatic_programs_enabled : Option Bool
  zones : Option (List (Option Zone))

/-- Outcome of a load: the aggregated failure state written into the container
(error message plus the retry button), or the data-dependent render. -/
inductive LoadOutcome where
  | failed (message : String) (hasRetryButton : Bool)
  | loaded (globalAuto : Bool) (zoneMap : List (Int × String)) (result : RenderResult)

/-- The three GET requests issued by `Promise.all`, all created before any
response is examined. -/
def loadRequests : List String :=
  ["/data/user_settings.json", "/data/program.json", "/get_program_state"]

/-- `loadUserSettingsAndPrograms()` as a function from the three responses to
the requests issued and the outcome: any non-`ok` response rejects the
`Promise.all`, and the catch handler writes one error state with a retry
button; otherwise the global-automation flag, the zone map and the cards are
computed from the bodies (`programsData = programs || {}`). -/
def loadUserSettingsAndPrograms (rs : HttpResp Settings)
    (rp : HttpResp (Option (List (String × Option Program))))
    (rst : HttpResp RunState) : List String × LoadOutcome :=
  (loadRequests,
   if rs.ok = false then
     .failed "Errore nel caricamento delle impostazioni utente" true
   else if rp.ok = false then
     .failed "Errore nel caricamento dei programmi" true
   else if rst.ok = false then
     .failed "Errore nel caricamento dello stato del programma" true
   else
     let zm := buildZoneNameMap rs.body.zones
     .loaded (rs.body.automatic_programs_enabled.getD false) zm
       (renderProgramCards zm (some (rp.body.getD [])) rst.body))

/-! ### Action dispatchers (view_programs.js lines 444–632) -/

/-- A JSON response to a POST: success flag and optional error text. -/
structure ApiResponse where
  success : Bool
  error : Option String
  deriving DecidableEq, Repr

/-- `classList.add('disabled'); b.disabled = true`. -/
def disableBtn (_b : Btn) : Btn :=
  { classDisabled := true, disabled := true }

/-- `classList.remove('disabled'); b.disabled = false`. -/
def enableBtn (_b : Btn) : Btn :=
  { classDisabled := false, disabled := false }

/-- Trace of one `startProgram(programId)` invocation: the requests issued, the
start button of that card right after the optimistic phase (before the response
arrives), the button after the response handler ran, and whether
`fetchProgramState` was triggered. The button is `Option` because
`querySelector` may find no matching card. -/
structure StartTrace where
  requests : List PostRequest
  afterOptimistic : Option Btn
  afterResponse : Option Btn
  refreshed : Bool
  deriving DecidableEq, Repr

/-- `startProgram(programId)` against a given run of the network: disable the
button, POST `{program_id}`, then on failure re-enable the button, on success
refresh the state. -/
def startProgram (programId : String) (startBtn : Option Btn) (resp : ApiResponse) : StartTrace :=
  let optimistic := startBtn.map disableBtn
  { requests := [{ url := "/start_program", body := [("program_id", .str programId)] }],
    afterOptimistic := optimistic,
    afterResponse := if resp.success then optimistic else optimistic.map enableBtn,
    refreshed := resp.success }

/-- Trace of one `stopProgram()` invocation over all `.btn-stop` buttons. -/
structure StopTrace where
  requests : List PostRequest
  afterOptimistic : List Btn
  afterResponse : List Btn
  refreshed : Bool
  deriving DecidableEq, Repr

/-- `stopProgram()`: disable every stop button, POST with no body fields, then
on failure re-enable them all, on success refresh the state. -/
def stopProgram (stopBtns : List Btn) (resp : ApiResponse) : StopTrace :=
  let optimistic := stopBtns.map disableBtn
  { requests := [{ url := "/stop_program", body := [] }],
    afterOptimistic := optimistic,
    afterResponse := if resp.success then optimistic else optimistic.map enableBtn,
    refreshed := resp.success }

/-- Trace of one `deleteProgram(programId)` invocation: requests issued, the
delete button of that card after the optimistic phase and after the response
(the source never touches it), and whether `loadUserSettingsAndPrograms` was
re-run. -/
structure DeleteTrace where
  requests : List PostRequest
  afterOptimistic : Btn
  afterResponse : Btn
  reloaded : Bool
  deriving DecidableEq, Repr

/-- `deleteProgram(programId)`: when the confirmation dialog is declined the
function returns before doing anything; when accepted it POSTs `{id}` and, on
success only, reloads the page data. No DOM mutation happens in either phase. -/
def deleteProgram (programId : String) (confirmed : Bool) (deleteBtn : Btn)
    (resp : ApiResponse) : DeleteTrace :=
  if confirmed then
    { requests := [{ url := "/delete_program", body := [("id", .str programId)] }],
      afterOptimistic := deleteBtn,
      afterResponse := deleteBtn,
      reloaded := resp.success }
  else
    { requests := [], afterOptimistic := deleteBtn, afterResponse := deleteBtn,
      reloaded := false }

/-- The automation toggle of one card: the checkbox state and the on/off icon. -/
structure AutoSwitch where
  checked : Bool
  iconOn : Bool
  deriving DecidableEq, Repr

/-- Trace of one `toggleProgramAutomatic(programId, enable)` invocation. The
switch is `Option` because `getElementById` may find nothing; `dataAutomatic`
is the `automatic_enabled` flag cached in `programsData` for that program after
the handler ran (`none` when the program is not in the cache or on failure the
cache is untouched, modelled by passing the prior value through). -/
structure ToggleTrace where
  requests : List PostRequest
  afterOptimistic : Option AutoSwitch
  afterResponse : Option AutoSwitch
  dataAutomatic : Option Bool
  deriving DecidableEq, Repr

/-- `toggleProgramAutomatic(programId, enable)`: POST `{program_id, enable}`
with no DOM change before the response; on success set the checkbox and icon to
`enable` and update the cached flag; on failure set the checkbox back to
`!enable` (the icon is left as it was). -/
def toggleProgramAutomatic (programId : String) (enable : Bool)
    (sw : Option AutoSwitch) (cachedAutomatic : Option Bool)
    (resp : ApiResponse) : ToggleTrace :=
  { requests := [{ url := "/toggle_program_automatic",
                   body := [("program_id", .str programId), ("enable", .bool enable)] }],
    afterOptimistic := sw,
    afterResponse :=
      if resp.success then sw.map (fun _ => { checked := enable, iconOn := enable })
      else sw.map (fun s => { s with checked := !enable }),
    dataAutomatic :=
      if resp.success then cachedAutomatic.map (fun _ => enable) else cachedAutomatic }

/-! ### Polling life cycle (view_programs.js lines 10–24, 91–112) -/

/-- The page-level polling state: the `programStatusInterval` variable (the
timer handle and its period in milliseconds, or `null`) and a counter of
`fetchProgramState` invocations made so far. -/
structure PageState where
  programStatusInterval : Option (Nat × Nat)
  fetchCount : Nat
  deriving DecidableEq, Repr

/-- `fetchProgramState()` as its observable effect on the page state: one more
state fetch. -/
def fetchProgramStateEffect (s : PageState) : PageState :=
  { s with fetchCount := s.fetchCount + 1 }

/-- `startProgramStatusPolling()`: fetch immediately, then register
`setInterval(fetchProgramState, 5000)` under a fresh handle. -/
def startProgramStatusPolling (s : PageState) (handle : Nat) : PageState :=
  let s1 := fetchProgramStateEffect s
  { s1 with programStatusInterval := some (handle, 5000) }

/-- One firing of the host's interval timer: a poll-driven fetch happens
exactly when the interval is registered. -/
def intervalTick (s : PageState) : PageState :=
  match s.programStatusInterval with
  | some _ => fetchProgramStateEffect s
  | none => s

/-- `stopProgramStatusPolling()`: when a handle is set, clear it and store
`null`; otherwise do nothing. -/
def stopProgramStatusPolling (s : PageState) : PageState :=
  match s.programStatusInterval with
  | some _ => { s with programStatusInterval := none }
  | none => s

/-- `cleanupViewProgramsPage()` (the `pagehide` handler): stop the polling. -/
def cleanupViewProgramsPage (s : PageState) : PageState :=
  stopProgramStatusPolling s

/-- The polling part of `initializeViewProgramsPage()`: start the poller. -/
def initializeViewProgramsPagePolling (s : PageState) (handle : Nat) : PageState :=
  startProgramStatusPolling s handle

/-- A minimal program value, used to instantiate theorems at concrete inputs. -/
def demoProgram : Program :=
  { name := none, activation_time := none, recurrence := none, interval_days := none,
    last_run_date := none, months := .undef, steps := .undef, automatic_enabled := none }

/-! ## Theorems -/

/-- Zipping a list with its image under `f` pairs each element with its image. -/
theorem zip_self_map {α β : Type} (f : α → β) :
    ∀ l : List α, l.zip (l.map f) = l.map (fun a => (a, f a))
  | [] => rfl
  | a :: l => by simp [zip_self_map f l]

/-- C2: `formatRecurrence` maps `giornaliero` to the every-day text,
`giorni_alterni` to the alternate-days text, and `personalizzata` to the
phrase `Ogni <count> giorn<suffix>` where the suffix is the singular `o`
exactly when `interval_days` is the number 1, and the plural `i` whenever
`interval_days` is a number greater than 1. -/
theorem formatRecurrence_spec (d : Option Int) :
    formatRecurrence (some "giornaliero") d = "Ogni giorno" ∧
    formatRecurrence (some "giorni_alterni") d = "Giorni alterni" ∧
    formatRecurrence (some "personalizzata") d =
      "Ogni " ++ toString (customCount d) ++ " giorn" ++ customDaySuffix d ∧
    (customDaySuffix d = "o" ↔ d = some 1) ∧
    (∀ n : Int, d = some n → 1 < n → customDaySuffix d = "i") := by
  refine ⟨rfl, rfl, rfl, ?_, ?_⟩
  · unfold customDaySuffix
    by_cases h : d = some 1 <;> simp [h]
  · intro n hn h1
    unfold customDaySuffix
    subst hn
    simp only [Option.some.injEq, ite_eq_right_iff]
    intro h
    omega

/-- Witness for `formatRecurrence_spec` at `interval_days = 3`. -/
theorem formatRecurrence_spec_witness :
    formatRecurrence (some "giornaliero") (some 3) = "Ogni giorno" ∧
    customDaySuffix (some 3) = "i" :=
  ⟨(formatRecurrence_spec (some 3)).1,
   (formatRecurrence_spec (some 3)).2.2.2.2 3 rfl (by norm_num)⟩

/-- C10: for the custom kind, a falsy `interval_days` (missing or zero) makes
the displayed count default to 1 while the suffix test `interval_days === 1`
fails, so the output is the mixed phrase `Ogni 1 giorni`. -/
theorem formatRecurrence_custom_falsy (d : Option Int) (h : d = none ∨ d = some 0) :
    formatRecurrence (some "personalizzata") d = "Ogni 1 giorni" := by
  rcases h with h | h <;> subst h <;> rfl

/-- Witness for `formatRecurrence_custom_falsy` at a missing `interval_days`. -/
theorem formatRecurrence_custom_falsy_witness :
    formatRecurrence (some "personalizzata") none = "Ogni 1 giorni" :=
  formatRecurrence_custom_falsy none (Or.inl rfl)

/-- C6: for every active-month list (including undefined, null, and empty),
`buildMonthsGrid` produces exactly 12 entries, and the entry for a month is
tagged `active` exactly when the list contains that month's name, `inactive`
exactly when it does not. -/
theorem buildMonthsGrid_spec (am : JSList String) :
    (buildMonthsGrid am).length = 12 ∧
    ∀ p ∈ monthNames.zip (buildMonthsGrid am),
      (p.2.cls = "active" ↔ p.1 ∈ am.orEmpty) ∧
      (p.2.cls = "inactive" ↔ p.1 ∉ am.orEmpty) := by
  constructor
  · simp [buildMonthsGrid, monthNames]
  · intro p hp
    rw [buildMonthsGrid, zip_self_map] at hp
    rcases List.mem_map.mp hp with ⟨m, _, rfl⟩
    by_cases hm : m ∈ am.orEmpty <;>
      simp [hm, List.elem_iff]

/-- Witness for `buildMonthsGrid_spec` on the list containing only March. -/
theorem buildMonthsGrid_spec_witness :
    (buildMonthsGrid (.arr ["Marzo"])).length = 12 ∧
    (("Marzo", ({ cls := "active", label := "Mar" } : MonthTag)).2.cls = "active" ↔
      ("Marzo", ({ cls := "active", label := "Mar" } : MonthTag)).1 ∈
        (JSList.arr ["Marzo"]).orEmpty) :=
  ⟨(buildMonthsGrid_spec (.arr ["Marzo"])).1,
   ((buildMonthsGrid_spec (.arr ["Marzo"])).2 _ (by decide)).1⟩

/-- After `updateCard`, the active class is exactly the `isActive` test. -/
theorem updateCard_activeClass (state : RunState) (c : Card) :
    (updateCard state c).activeClass =
      (state.program_running && (state.current_program_id == some c.programId)) := by
  unfold updateCard
  cases h : state.program_running && (state.current_program_id == some c.programId) <;>
    simp only [h] <;> split <;> (try split) <;> (try split) <;> simp_all

/-- C1: a card carries the active-program styling exactly when the run state
reports a running program whose id equals the card's program id; this holds
both for the poll-driven `updateProgramsUI` patch and for the card produced at
initial render by `renderProgramCards`. The running indicator node agrees
whenever the card has a header (always true for freshly rendered cards). -/
theorem activeProgram_iff (state : RunState) (c : Card) (pid : String)
    (zm : List (Int × String)) (prog : Program) :
    ((updateCard state c).activeClass = true ↔
      state.program_running = true ∧ state.current_program_id = some c.programId) ∧
    (c.hasHeader = true →
      ((updateCard state c).hasIndicator = true ↔
        state.program_running = true ∧ state.current_program_id = some c.programId)) ∧
    ((renderCard zm state pid prog).card.activeClass = true ↔
      state.program_running = true ∧ state.current_program_id = some pid) ∧
    ((renderCard zm state pid prog).card.hasIndicator = true ↔
      state.program_running = true ∧ state.current_program_id = some pid) := by
  refine ⟨?_, ?_, ?_, ?_⟩
  · rw [updateCard_activeClass]
    simp
  · intro hh
    unfold updateCard
    cases h : state.program_running && (state.current_program_id == some c.programId) with
    | false =>
      simp only [h]
      have : ¬(state.program_running = true ∧
          state.current_program_id = some c.programId) := by
        intro hand
        rw [hand.1, hand.2] at h
        simp at h
      split <;> (try split) <;> (try split) <;> simp_all
    | true =>
      simp only [h]
      have hand := h
      simp only [Bool.and_eq_true, beq_iff_eq] at hand
      split <;> (try split) <;> (try split) <;> simp_all
  · unfold renderCard
    simp
  · unfold renderCard
    simp

/-- Witness for `activeProgram_iff`: a running state matched by the card. -/
theorem activeProgram_iff_witness :
    ((updateCard { current_program_id := some "3", program_running := true }
        { programId := "3", activeClass := false, hasHeader := true, hasIndicator := false,
          hasButtons := true, startBtn := { classDisabled := false, disabled := false },
          stopBtn := { classDisabled := true, disabled := true } }).hasIndicator = true ↔
      (true = true ∧ (some "3" : Option String) = some "3")) :=
  ((activeProgram_iff { current_program_id := some "3", program_running := true }
      { programId := "3", activeClass := false, hasHeader := true, hasIndicator := false,
        hasButtons := true, startBtn := { classDisabled := false, disabled := false },
        stopBtn := { classDisabled := true, disabled := true } } "3" [] demoProgram).2.1 rfl)

/-- C7: when both buttons are present, `updateProgramsUI` sets them by the
three-way case split: the running card gets start disabled and stop enabled;
any other card while a program runs gets both disabled; every card while no
program runs gets start enabled and stop disabled. -/
theorem updateCard_buttonStates (state : RunState) (c : Card) (hb : c.hasButtons = true) :
    (state.program_running = true → state.current_program_id = some c.programId →
      (updateCard state c).startBtn = { classDisabled := true, disabled := true } ∧
      (updateCard state c).stopBtn = { classDisabled := false, disabled := false }) ∧
    (state.program_running = true → state.current_program_id ≠ some c.programId →
      (updateCard state c).startBtn = { classDisabled := true, disabled := true } ∧
      (updateCard state c).stopBtn = { classDisabled := true, disabled := true }) ∧
    (state.program_running = false →
      (updateCard state c).startBtn = { classDisabled := false, disabled := false } ∧
      (updateCard state c).stopBtn = { classDisabled := true, disabled := true }) := by
  refine ⟨?_, ?_, ?_⟩
  · intro hr hid
    unfold updateCard
    simp [hr, hid, hb]
  · intro hr hid
    unfold updateCard
    simp [hr, hid, hb]
  · intro hr
    unfold updateCard
    simp [hr, hb]

/-- Witness for `updateCard_buttonStates`: idle state enables start only. -/
theorem updateCard_buttonStates_witness :
    (updateCard { current_program_id := none, program_running := false }
        { programId := "1", activeClass := true, hasHeader := true, hasIndicator := true,
          hasButtons := true, startBtn := { classDisabled := true, disabled := true },
          stopBtn := { classDisabled := true, disabled := true } }).startBtn =
      { classDisabled := false, disabled := false } ∧
    (updateCard { current_program_id := none, program_running := false }
        { programId := "1", activeClass := true, hasHeader := true, hasIndicator := true,
          hasButtons := true, startBtn := { classDisabled := true, disabled := true },
          stopBtn := { classDisabled := true, disabled := true } }).stopBtn =
      { classDisabled := true, disabled := true } :=
  (updateCard_buttonStates { current_program_id := none, program_running := false }
      { programId := "1", activeClass := true, hasHeader := true, hasIndicator := true,
        hasButtons := true, startBtn := { classDisabled := true, disabled := true },
        stopBtn := { classDisabled := true, disabled := true } } rfl).2.2 rfl

/-- C3: `toggleProgramAutomatic` issues exactly one POST whose body is exactly
`{program_id: programId, enable: enable}`, and on a response with a false
success flag it sets the checkbox back to the negation of `enable`. -/
theorem toggleProgramAutomatic_spec (pid : String) (enable : Bool)
    (sw : Option AutoSwitch) (cache : Option Bool) (resp : ApiResponse) :
    (toggleProgramAutomatic pid enable sw cache resp).requests =
      [{ url := "/toggle_program_automatic",
         body := [("program_id", .str pid), ("enable", .bool enable)] }] ∧
    (resp.success = false → ∀ s, sw = some s →
      (toggleProgramAutomatic pid enable sw cache resp).afterResponse =
        some { s with checked := !enable }) := by
  refine ⟨rfl, ?_⟩
  intro hfail s hs
  simp [toggleProgramAutomatic, hfail, hs]

/-- Witness for `toggleProgramAutomatic_spec`: a failed toggle-on reverts the
checkbox to off. -/
theorem toggleProgramAutomatic_spec_witness :
    (toggleProgramAutomatic "2" true (some { checked := true, iconOn := false })
        none { success := false, error := none }).afterResponse =
      some { checked := false, iconOn := false } :=
  (toggleProgramAutomatic_spec "2" true (some { checked := true, iconOn := false })
      none { success := false, error := none }).2 rfl
    { checked := true, iconOn := false } rfl

/-- C4: the loader always issues exactly the three GET requests, and whenever
any of the three responses has a non-ok HTTP status the outcome is a single
error state with a retry button — never a rendered card list. -/
theorem loadUserSettingsAndPrograms_failure (rs : HttpResp Settings)
    (rp : HttpResp (Option (List (String × Option Program)))) (rst : HttpResp RunState)
    (h : rs.ok = false ∨ rp.ok = false ∨ rst.ok = false) :
    (loadUserSettingsAndPrograms rs rp rst).1 = loadRequests ∧
    (∃ msg, (loadUserSettingsAndPrograms rs rp rst).2 = .failed msg true) ∧
    (∀ ga zm r, (loadUserSettingsAndPrograms rs rp rst).2 ≠ .loaded ga zm r) := by
  refine ⟨rfl, ?_, ?_⟩ <;>
  · unfold loadUserSettingsAndPrograms
    rcases h with h | h | h
    · simp [h]
    · by_cases h1 : rs.ok = false <;> simp [h, h1]
    · by_cases h1 : rs.ok = false <;> by_cases h2 : rp.ok = false <;> simp [h, h1, h2]

/-- Witness for `loadUserSettingsAndPrograms_failure`: the program-list request
failing while the other two succeed. -/
theorem loadUserSettingsAndPrograms_failure_witness :
    (loadUserSettingsAndPrograms
        { ok := true, body := { automatic_programs_enabled := none, zones := none } }
        { ok := false, body := none }
        { ok := true, body := { current_program_id := none, program_running := false } }).1 =
      loadRequests ∧
    ∃ msg,
      (loadUserSettingsAndPrograms
          { ok := true, body := { automatic_programs_enabled := none, zones := none } }
          { ok := false, body := none }
          { ok := true, body := { current_program_id := none, program_running := false } }).2 =
        .failed msg true :=
  ⟨(loadUserSettingsAndPrograms_failure
      { ok := true, body := { automatic_programs_enabled := none, zones := none } }
      { ok := false, body := none }
      { ok := true, body := { current_program_id := none, program_running := false } }
      (Or.inr (Or.inl rfl))).1,
   (loadUserSettingsAndPrograms_failure
      { ok := true, body := { automatic_programs_enabled := none, zones := none } }
      { ok := false, body := none }
      { ok := true, body := { current_program_id := none, program_running := false } }
      (Or.inr (Or.inl rfl))).2.1⟩

/-- C5 counterexample: `deleteProgram`, with the confirmation accepted, leaves
its control untouched before the response arrives — the delete button of the
card stays enabled — so not every dispatcher optimistically disables the
control it affects. -/
theorem deleteProgram_no_optimistic_disable :
    (deleteProgram "1" true { classDisabled := false, disabled := false }
        { success := false, error := none }).afterOptimistic =
      { classDisabled := false, disabled := false } := rfl

/-- C5 (amended): each dispatcher issues exactly one POST; `startProgram` and
`stopProgram` optimistically disable the affected button(s) and re-enable them
on a failed response; `deleteProgram` makes no optimistic UI change and leaves
the UI unchanged on failure; `toggleProgramAutomatic` makes no pre-response
change and on failure reverts the checkbox to the negation of `enable`. -/
theorem dispatchers_single_post_rollback (pid : String) (b : Btn) (stops : List Btn)
    (db : Btn) (sw : AutoSwitch) (cache : Option Bool) (enable : Bool)
    (resp : ApiResponse) (hfail : resp.success = false) :
    ((startProgram pid (some b) resp).requests.length = 1 ∧
     (startProgram pid (some b) resp).afterOptimistic =
       some { classDisabled := true, disabled := true } ∧
     (startProgram pid (some b) resp).afterResponse =
       some { classDisabled := false, disabled := false }) ∧
    ((stopProgram stops resp).requests.length = 1 ∧
     (∀ x ∈ (stopProgram stops resp).afterOptimistic, x.disabled = true) ∧
     (∀ x ∈ (stopProgram stops resp).afterResponse, x.disabled = false)) ∧
    ((deleteProgram pid true db resp).requests.length = 1 ∧
     (deleteProgram pid true db resp).afterOptimistic = db ∧
     (deleteProgram pid true db resp).afterResponse = db) ∧
    ((toggleProgramAutomatic pid enable (some sw) cache resp).requests.length = 1 ∧
     (toggleProgramAutomatic pid enable (some sw) cache resp).afterOptimistic = some sw ∧
     (toggleProgramAutomatic pid enable (some sw) cache resp).afterResponse =
       some { sw with checked := !enable }) := by
  refine ⟨⟨rfl, rfl, ?_⟩, ⟨rfl, ?_, ?_⟩, ⟨rfl, rfl, rfl⟩, ⟨rfl, rfl, ?_⟩⟩
  · simp [startProgram, hfail, disableBtn, enableBtn]
  · intro x hx
    simp only [stopProgram, List.mem_map] at hx
    rcases hx with ⟨y, _, rfl⟩
    rfl
  · intro x hx
    simp only [stopProgram, hfail, if_neg, Bool.false_eq_true, if_false,
      List.mem_map] at hx
    rcases hx with ⟨y, _, rfl⟩
    rfl
  · simp [toggleProgramAutomatic, hfail]

/-- Witness for `dispatchers_single_post_rollback` at concrete inputs. -/
theorem dispatchers_single_post_rollback_witness :
    (startProgram "1" (some { classDisabled := false, disabled := false })
        { success := false, error := none }).afterResponse =
      some { classDisabled := false, disabled := false } ∧
    (deleteProgram "1" true { classDisabled := false, disabled := false }
        { success := false, error := none }).requests.length = 1 :=
  ⟨((dispatchers_single_post_rollback "1" { classDisabled := false, disabled := false }
      [] { classDisabled := false, disabled := false } { checked := true, iconOn := true }
      none true { success := false, error := none } rfl).1).2.2,
   ((dispatchers_single_post_rollback "1" { classDisabled := false, disabled := false }
      [] { classDisabled := false, disabled := false } { checked := true, iconOn := true }
      none true { success := false, error := none } rfl).2.2.1).1⟩

/-- C8: `deleteProgram` POSTs to `/delete_program` only when the confirmation
is accepted; when it is declined no request is issued, the UI is untouched and
no reload happens. -/
theorem deleteProgram_requires_confirmation (pid : String) (db : Btn) (resp : ApiResponse) :
    (deleteProgram pid true db resp).requests =
      [{ url := "/delete_program", body := [("id", .str pid)] }] ∧
    (deleteProgram pid false db resp).requests = [] ∧
    (deleteProgram pid false db resp).afterOptimistic = db ∧
    (deleteProgram pid false db resp).afterResponse = db ∧
    (deleteProgram pid false db resp).reloaded = false :=
  ⟨rfl, rfl, rfl, rfl, rfl⟩

/-- C9: starting the poller (as page initialization does) fetches once
immediately and registers the 5-second interval, under which each timer tick
fetches again; the page-hide teardown clears the handle to null, after which
timer ticks fetch nothing, until a new initialization starts fetching again. -/
theorem polling_lifecycle (s : PageState) (handle : Nat) :
    initializeViewProgramsPagePolling s handle = startProgramStatusPolling s handle ∧
    (startProgramStatusPolling s handle).fetchCount = s.fetchCount + 1 ∧
    (startProgramStatusPolling s handle).programStatusInterval = some (handle, 5000) ∧
    (intervalTick (startProgramStatusPolling s handle)).fetchCount = s.fetchCount + 2 ∧
    (cleanupViewProgramsPage s).programStatusInterval = none ∧
    intervalTick (cleanupViewProgramsPage s) = cleanupViewProgramsPage s ∧
    (intervalTick (startProgramStatusPolling (cleanupViewProgramsPage s) handle)).fetchCount =
      s.fetchCount + 2 := by
  refine ⟨rfl, rfl, rfl, rfl, ?_, ?_, ?_⟩ <;>
  · unfold cleanupViewProgramsPage stopProgramStatusPolling
    cases h : s.programStatusInterval <;>
      simp [h, intervalTick, startProgramStatusPolling, fetchProgramStateEffect]

end ViewPrograms
